import Mathlib

/-!
Verification of the orchestration script examples/save_quadratic.py.

The script is a straight-line pipeline: a Dataset Provider
(sdr.datasets.make_quadratic with seed 123), an Estimator
(SlicedAverageVarianceEstimation, used through fit_transform and the fitted
attribute components_), and a Renderer (one scatter call, two axis labels,
two annotations, one show call).  The sdr package itself is not among the
given sources, so the Provider and the Estimator contract are modelled from
the specification; the script wiring is translated from the source file.
Matrices are lists of rows of rationals; TeX markup inside the label strings
of the source is transliterated to plain text, since only the positions and
numeric payloads of the annotations matter to the properties below.
-/

namespace SaveQuadratic

/-- A matrix, as a list of rows of rationals. -/
abbrev Mat := List (List ℚ)

/-- Column count of a matrix: the length of its first row (0 when empty). -/
def ncols (X : Mat) : Nat := (X.headD []).length

/-- Dot product of two coordinate lists. -/
def dot (u v : List ℚ) : ℚ := (List.zipWith (fun a b => a * b) u v).sum

/-- Column j of a matrix, one entry per row (0 when the row is too short). -/
def matCol (M : Mat) (j : Nat) : List ℚ := M.map (fun r => r.getD j 0)

/-- The n by n identity matrix, an orthonormal system of direction vectors. -/
def idMat (n : Nat) : Mat :=
  (List.range n).map (fun i => (List.range n).map (fun j => if i = j then (1 : ℚ) else 0))

/-- Product of two matrices: rows of A against columns of B. -/
def matMul (A B : Mat) : Mat :=
  A.map (fun r => (List.range (ncols B)).map (fun j => dot r (matCol B j)))

/-- Modelled from the spec: the pseudo-random step that drives the Dataset
Provider.  The sdr.datasets module is absent from the given sources; a linear
congruential generator makes the Provider a deterministic function of the
seed, as the spec requires (same seed gives bit-identical output). -/
def lcg (s : Nat) : Nat := (1103515245 * s + 12345) % 2147483648

/-- Modelled from the spec: a stream of n pseudo-random raw values from a seed. -/
def lcgList (s : Nat) : Nat → List Nat
  | 0 => []
  | n + 1 => lcg s :: lcgList (lcg s) n

/-- Modelled from the spec: scale a raw generator value to a rational in the
interval from -1 to 1. -/
def unitVal (v : Nat) : ℚ := ((v % 2001 : Nat) : ℚ) / 1000 - 1

/-- Sample count of the synthetic dataset (the spec fixes no number, only that
the sample is of fixed size). -/
def n_samples : Nat := 100

/-- Feature count of the synthetic dataset; the spec requires at least 2. -/
def n_features : Nat := 10

/-- Modelled from the spec: the Dataset Provider datasets.make_quadratic, which
is absent from the given sources.  Given a seed it deterministically returns a
feature matrix X of shape (n_samples, n_features) and a response vector y in a
known quadratic relationship with X plus noise: y is the square of the
projection of each row along the direction proportional to [0.707, 0.707]
(the first two features), plus a small noise term.  No side effects. -/
def make_quadratic (random_state : Nat) : Mat × List ℚ :=
  let vals := lcgList random_state (n_samples * (n_features + 1))
  let row := fun (i : Nat) =>
    (List.range n_features).map (fun j => unitVal (vals.getD (i * (n_features + 1) + j) 0))
  let X := (List.range n_samples).map row
  let y := (List.range n_samples).map (fun i =>
    ((row i).getD 0 0 + (row i).getD 1 0) ^ 2 / 2
      + unitVal (vals.getD (i * (n_features + 1) + n_features) 0) / 10)
  (X, y)

/-- Error taxonomy of the spec: input validation errors from the Provider,
estimation errors from the Estimator, rendering errors from the Renderer. -/
inductive Err
  | inputValidation (msg : String)
  | estimation (msg : String)
  | rendering (msg : String)
deriving DecidableEq

/-- Result of a successful fit: the projected matrix X_save and the matrix of
learned direction vectors components_, one feature per row and one retained
direction per column, first column most informative. -/
structure SaveFit where
  X_save : Mat
  components_ : Mat
deriving DecidableEq

/-- Modelled from the spec: the fit-and-transform operation of the Estimator
SlicedAverageVarianceEstimation, whose implementation is absent from the given
sources.  Per the orchestration contract it takes (X, y) and returns a
projected matrix, exposing a read-only matrix of learned orthonormal direction
vectors; it fails with an estimation error when X and y have mismatched row
counts or when X has fewer than 2 columns, and never silently truncates. -/
def fit_transform (X : Mat) (y : List ℚ) : Except Err SaveFit :=
  if X.length ≠ y.length then
    Except.error (Err.estimation "X and y have mismatched row counts")
  else if ncols X < 2 then
    Except.error (Err.estimation "X has fewer than 2 columns")
  else
    Except.ok { X_save := matMul X (idMat (ncols X)), components_ := idMat (ncols X) }

/-- A text annotation placed on the figure: a label, the list of numeric values
displayed after the label, and the 2D anchor position. -/
structure Annot where
  label : String
  values : List ℚ
  xy : ℚ × ℚ
deriving DecidableEq

/-- One scatter call: x coordinates, vertical axis values, color values, the
colormap name and the line width. -/
structure ScatterCall where
  xs : List ℚ
  ys : List ℚ
  color : List ℚ
  cmap : String
  linewidth : ℚ
deriving DecidableEq

/-- The figure built by the Renderer calls of the script. -/
structure Figure where
  scatters : List ScatterCall
  xlabel : Option String
  ylabel : Option String
  annots : List Annot
  shown : Bool
deriving DecidableEq

/-- Rounding to 3 decimal places, as np.round(v, 3) applied entrywise in the
script. -/
def round3 (x : ℚ) : ℚ := ((round (x * 1000) : ℤ) : ℚ) / 1000

/-- The Renderer stage of the script, translated from the source lines 23 to 34:
one scatter of the first column of X_save against y colored by y, the two axis
labels, the annotation of the hand-coded true direction [0.707, 0.707] anchored
at (-1, 2), the annotation of the first two entries of beta1_hat rounded to 3
decimals anchored at (-1, 1.75), then show. -/
def render (X_save : Mat) (y : List ℚ) (beta1_hat : List ℚ) : Figure :=
  { scatters := [{ xs := matCol X_save 0, ys := y, color := y,
                   cmap := "viridis", linewidth := 1/2 }],
    xlabel := some "X beta1_hat",
    ylabel := some "y",
    annots := [
      { label := "beta_1 = ", values := [707/1000, 707/1000], xy := (-1, 2) },
      { label := "beta1_hat = ", values := (beta1_hat.map round3).take 2,
        xy := (-1, 7/4) }],
    shown := true }

/-- The straight-line control flow of the script, generic in the three stages so
that propagation can be stated for a failure of any of them: the Provider
result is consumed by the Estimator, whose result yields X_save and
beta1_hat (the first column of components_) for the Renderer; any error
short-circuits the rest, since the script installs no handler. -/
def scriptSteps (p : Except Err (Mat × List ℚ))
    (est : Mat → List ℚ → Except Err SaveFit)
    (rend : Mat → List ℚ → List ℚ → Except Err Figure) : Except Err Figure :=
  match p with
  | Except.error e => Except.error e
  | Except.ok (X, y) =>
    match est X y with
    | Except.error e => Except.error e
    | Except.ok save => rend save.X_save y (matCol save.components_ 0)

/-- The rendering backend of the actual run: a working display, so every
Renderer call succeeds and yields the built figure. -/
def okRenderer (Xs : Mat) (yv bh : List ℚ) : Except Err Figure :=
  Except.ok (render Xs yv bh)

/-- The whole script run: Provider with seed 123, then fit_transform, then the
Renderer. -/
def runScript : Except Err Figure :=
  scriptSteps (Except.ok (make_quadratic 123)) fit_transform okRenderer

/-- The three stages of the pipeline. -/
inductive Stage
  | provider | estimator | renderer
deriving DecidableEq

/-- The script run together with the trace of the stages it executes, in the
order the source executes them: the Provider call, then the Estimator call,
then (when the Estimator succeeds) the block of Renderer calls. -/
def runScriptTraced : Except Err Figure × List Stage :=
  let Xy := make_quadratic 123
  match fit_transform Xy.1 Xy.2 with
  | Except.error e => (Except.error e, [Stage.provider, Stage.estimator])
  | Except.ok save =>
    (Except.ok (render save.X_save Xy.2 (matCol save.components_ 0)),
     [Stage.provider, Stage.estimator, Stage.renderer])

/-- Exit status of the process: 0 on success, nonzero on an unhandled error. -/
def exitCode : Except Err Figure → Nat
  | Except.ok _ => 0
  | Except.error _ => 1

/-- The feature matrix of the actual run. -/
def X1 : Mat := (make_quadratic 123).1

/-- The response vector of the actual run. -/
def y1 : List ℚ := (make_quadratic 123).2

/-- The fitted Estimator state of the actual run. -/
def save1 : SaveFit :=
  { X_save := matMul X1 (idMat (ncols X1)), components_ := idMat (ncols X1) }

/-- The figure of the actual run. -/
def fig1 : Figure := render save1.X_save y1 (matCol save1.components_ 0)

lemma fit1 : fit_transform X1 y1 = Except.ok save1 := rfl

lemma run1 : runScript = Except.ok fig1 := rfl

lemma scriptSteps_error (e : Err) (est : Mat → List ℚ → Except Err SaveFit)
    (rend : Mat → List ℚ → List ℚ → Except Err Figure) :
    scriptSteps (Except.error e) est rend = Except.error e := rfl

lemma scriptSteps_ok (X : Mat) (y : List ℚ) (est : Mat → List ℚ → Except Err SaveFit)
    (rend : Mat → List ℚ → List ℚ → Except Err Figure) :
    scriptSteps (Except.ok (X, y)) est rend
      = match est X y with
        | Except.error e => Except.error e
        | Except.ok save => rend save.X_save y (matCol save.components_ 0) := rfl

lemma fit_transform_ok (X : Mat) (y : List ℚ) (save : SaveFit)
    (h : fit_transform X y = Except.ok save) :
    X.length = y.length ∧ ¬ ncols X < 2 ∧
      save = { X_save := matMul X (idMat (ncols X)), components_ := idMat (ncols X) } := by
  by_cases hne : X.length = y.length
  · by_cases hlt : ncols X < 2
    · rw [fit_transform, if_neg (not_ne_iff.mpr hne), if_pos hlt] at h
      exact Except.noConfusion h
    · rw [fit_transform, if_neg (not_ne_iff.mpr hne), if_neg hlt] at h
      injection h with h2
      exact ⟨hne, hlt, h2.symm⟩
  · rw [fit_transform, if_pos hne] at h
    exact Except.noConfusion h

/-- C1: the script executes exactly three stages in the fixed order Provider,
then Estimator, then Renderer: its stage trace is exactly the list
[provider, estimator, renderer], so each stage occurs exactly once and in that
order, with no branching, no loop and no retry; the run the trace belongs to is
the script run itself. -/
theorem c1_pipeline_three_stages_once :
    runScriptTraced.2 = [Stage.provider, Stage.estimator, Stage.renderer] ∧
    runScriptTraced.2.count Stage.provider = 1 ∧
    runScriptTraced.2.count Stage.estimator = 1 ∧
    runScriptTraced.2.count Stage.renderer = 1 ∧
    runScriptTraced.1 = runScript :=
  ⟨rfl, rfl, rfl, rfl, rfl⟩

/-- C2: the Provider is deterministic: two invocations of make_quadratic with
the fixed seed 123 return identical (X, y); in particular the shapes agree
across repeated invocations, X being n_samples rows of n_features entries and y
having n_samples entries. -/
theorem c2_provider_deterministic :
    make_quadratic 123 = make_quadratic 123 ∧
    X1.length = n_samples ∧ y1.length = n_samples ∧
    X1.all (fun r => r.length == n_features) = true :=
  ⟨rfl, by decide, by decide, by decide⟩

/-- C3: for every (X, y) accepted by fit_transform, acceptance forces X and y to
have the same row count, and the returned X_save has that same row count; the
script never changes the row count of any of the three. -/
theorem c3_row_counts_equal (X : Mat) (y : List ℚ) (save : SaveFit)
    (h : fit_transform X y = Except.ok save) :
    save.X_save.length = X.length ∧ X.length = y.length := by
  obtain ⟨hne, -, hsave⟩ := fit_transform_ok X y save h
  subst hsave
  exact ⟨by simp [matMul], hne⟩

/-- Witness for C3 at the concrete dataset and fit of the script run. -/
theorem c3_row_counts_equal_witness :
    save1.X_save.length = X1.length ∧ X1.length = y1.length :=
  c3_row_counts_equal X1 y1 save1 rfl

/-- C4: after a successful fit, the script hands the Renderer exactly the first
column of components_ as beta1_hat, and that column has length equal to the
column (feature) count of X. -/
theorem c4_beta1_hat_first_column (X : Mat) (y : List ℚ) (save : SaveFit)
    (rend : Mat → List ℚ → List ℚ → Except Err Figure)
    (h : fit_transform X y = Except.ok save) :
    scriptSteps (Except.ok (X, y)) fit_transform rend
      = rend save.X_save y (matCol save.components_ 0) ∧
    (matCol save.components_ 0).length = ncols X := by
  constructor
  · rw [scriptSteps_ok, h]
  · obtain ⟨-, -, hsave⟩ := fit_transform_ok X y save h
    subst hsave
    simp [matCol, idMat]

/-- Witness for C4 at the concrete dataset and fit of the script run. -/
theorem c4_beta1_hat_first_column_witness :
    scriptSteps (Except.ok (X1, y1)) fit_transform okRenderer
      = okRenderer save1.X_save y1 (matCol save1.components_ 0) ∧
    (matCol save1.components_ 0).length = ncols X1 :=
  c4_beta1_hat_first_column X1 y1 save1 okRenderer rfl

/-- C5: the end-to-end run with seed 123 completes without raising, yielding one
shown figure with exactly two text annotations, anchored at (-1, 2) and at
(-1, 1.75) respectively. -/
theorem c5_end_to_end_two_annotations :
    runScript = Except.ok fig1 ∧
    fig1.annots.length = 2 ∧
    fig1.annots.map Annot.xy = [((-1 : ℚ), 2), ((-1 : ℚ), 7/4)] ∧
    fig1.shown = true :=
  ⟨run1, rfl, rfl, rfl⟩

/-- C6: the Renderer receives exactly one scatter call, whose x coordinates are
the first column of X_save and whose vertical axis and color sequences are both
the response vector y. -/
theorem c6_scatter_first_column_colored_by_y :
    runScript = Except.ok fig1 ∧
    fig1.scatters = [{ xs := matCol save1.X_save 0, ys := y1, color := y1,
                       cmap := "viridis", linewidth := 1/2 }] :=
  ⟨run1, rfl⟩

/-- C7: the script catches no exception: a Provider error makes the whole run
that error, an Estimator error does too, a Renderer error does too, any error
reaches the process boundary with exit status 1, and the actual run exits with
status 0. -/
theorem c7_errors_propagate_unhandled :
    (∀ (e : Err) (est : Mat → List ℚ → Except Err SaveFit)
        (rend : Mat → List ℚ → List ℚ → Except Err Figure),
      scriptSteps (Except.error e) est rend = Except.error e) ∧
    (∀ (e : Err) (est : Mat → List ℚ → Except Err SaveFit)
        (rend : Mat → List ℚ → List ℚ → Except Err Figure) (X : Mat) (y : List ℚ),
      est X y = Except.error e →
      scriptSteps (Except.ok (X, y)) est rend = Except.error e) ∧
    (∀ (e : Err) (est : Mat → List ℚ → Except Err SaveFit)
        (rend : Mat → List ℚ → List ℚ → Except Err Figure)
        (X : Mat) (y : List ℚ) (save : SaveFit),
      est X y = Except.ok save →
      rend save.X_save y (matCol save.components_ 0) = Except.error e →
      scriptSteps (Except.ok (X, y)) est rend = Except.error e) ∧
    (∀ e : Err, exitCode (Except.error e) = 1) ∧
    exitCode runScript = 0 := by
  refine ⟨fun e est rend => rfl, ?_, ?_, fun e => rfl, ?_⟩
  · intro e est rend X y h
    rw [scriptSteps_ok, h]
  · intro e est rend X y save hok hrend
    rw [scriptSteps_ok, hok]
    exact hrend
  · rw [run1]
    rfl

/-- Witness for C7: a Provider error propagates, a concrete mismatched input
makes the Estimator stage propagate its estimation error, and the actual run
exits 0. -/
theorem c7_errors_propagate_unhandled_witness :
    scriptSteps (Except.error (Err.inputValidation "bad seed")) fit_transform okRenderer
      = Except.error (Err.inputValidation "bad seed") ∧
    scriptSteps (Except.ok ([[1, 2]], [])) fit_transform okRenderer
      = Except.error (Err.estimation "X and y have mismatched row counts") ∧
    exitCode runScript = 0 :=
  ⟨c7_errors_propagate_unhandled.1 (Err.inputValidation "bad seed") fit_transform okRenderer,
   c7_errors_propagate_unhandled.2.1 (Err.estimation "X and y have mismatched row counts")
     fit_transform okRenderer [[1, 2]] [] rfl,
   c7_errors_propagate_unhandled.2.2.2.2⟩

/-- C8: whenever X and y have mismatched row counts, or X has fewer than 2
columns, fit_transform fails with an estimation error rather than returning any
(possibly truncated) success. -/
theorem c8_fit_transform_validation (X : Mat) (y : List ℚ)
    (h : X.length ≠ y.length ∨ ncols X < 2) :
    ∃ msg, fit_transform X y = Except.error (Err.estimation msg) := by
  unfold fit_transform
  rcases h with h | h
  · exact ⟨"X and y have mismatched row counts", by rw [if_pos h]⟩
  · by_cases hne : X.length ≠ y.length
    · exact ⟨"X and y have mismatched row counts", by rw [if_pos hne]⟩
    · exact ⟨"X has fewer than 2 columns", by rw [if_neg hne, if_pos h]⟩

/-- Witness for C8: a one-row X against an empty y fails with an estimation
error. -/
theorem c8_fit_transform_validation_witness :
    (([[1, 2]] : Mat).length ≠ ([] : List ℚ).length ∨ ncols [[1, 2]] < 2) ∧
    ∃ msg, fit_transform [[1, 2]] [] = Except.error (Err.estimation msg) :=
  ⟨Or.inl (by decide),
   c8_fit_transform_validation [[1, 2]] [] (Or.inl (by decide))⟩

/-- C9: the displayed true direction of the first annotation is the hand-coded
literal [0.707, 0.707]: it is identical for every projected matrix, response
vector and fitted direction handed to the Renderer, hence derived from nothing
the Provider produced; the actual figure displays that same literal. -/
theorem c9_true_direction_is_literal :
    (∀ (Xs : Mat) (yv b : List ℚ),
      ((render Xs yv b).annots.map Annot.values).headD [] = [707/1000, 707/1000]) ∧
    (fig1.annots.map Annot.values).headD [] = [707/1000, 707/1000] :=
  ⟨fun _ _ _ => rfl, rfl⟩

/-- C10: the second annotation displays only the first two components of
beta1_hat, each rounded to 3 decimals: for any fitted direction with more than
2 entries the displayed list is the 3-decimal rounding of the first two entries
and the remaining components are omitted from the figure. -/
theorem c10_second_annotation_truncates (Xs : Mat) (yv b : List ℚ)
    (h : 2 < b.length) :
    ((render Xs yv b).annots.map Annot.values).getD 1 [] = (b.map round3).take 2 ∧
    (((render Xs yv b).annots.map Annot.values).getD 1 []).length = 2 ∧
    (((render Xs yv b).annots.map Annot.values).getD 1 []).length < b.length := by
  refine ⟨rfl, ?_, ?_⟩
  · simp [render]
    omega
  · simp [render]
    omega

/-- Witness for C10 at a direction vector with 3 entries: only two values are
displayed. -/
theorem c10_second_annotation_truncates_witness :
    2 < ([1, 2, 3] : List ℚ).length ∧
    ((render [] [] [1, 2, 3]).annots.map Annot.values).getD 1 []
      = (([1, 2, 3] : List ℚ).map round3).take 2 :=
  ⟨by decide, (c10_second_annotation_truncates [] [] [1, 2, 3] (by decide)).1⟩

end SaveQuadratic
